import Mathlib

/-!
Verification of the time-series analysis engine of the Analysis-app repository
(src/data_analysis.py) against its natural-language specification.

The engine consists of three public functions:
  - perform_trend_analysis (the spec names it compute_indicators),
  - detect_patterns,
  - predict_future_values (the spec names it forecast).

Modelling conventions (shallow embedding):
  - A float64 value that may be missing (NaN) is modelled as `Option ℚ`;
    a defined float value is an exact rational, except standard deviations,
    which are irrational in general and are modelled as exact reals via
    `Real.sqrt` of an exactly computed rational variance.
  - A timestamp is modelled as an integer (a day number): the code only uses
    timestamps as a sortable index and, in the forecaster, through the
    inferred constant spacing of consecutive timestamps.
  - pandas NaN semantics are made explicit: every comparison with NaN is
    false, arithmetic with NaN yields NaN, `rolling(..., min_periods=1)`
    aggregates the non-missing values of the trailing window, and
    `x.ewm(..., adjust=False)` follows the pandas recurrence, decaying the
    weight of the running average across missing observations.
  - A tabular input (DataFrame) is a shared integer index plus named columns,
    each either numeric (float64/int64, possibly missing values) or
    non-numeric (object dtype, e.g. strings); `select_dtypes` sees only the
    numeric ones.
-/

set_option maxRecDepth 8000

attribute [local semireducible] Rat.add Rat.sub Rat.mul Rat.inv

namespace DataAnalysis

/-! Shared series-level primitives -/

/-- Positions of the trailing window of size `w` ending at position `i`,
in ascending order: `max 0 (i+1-w), ..., i` (pandas `rolling(window=w)`). -/
def windowPos (w i : ℕ) : List ℕ :=
  List.range' (i + 1 - w) (min w (i + 1))

/-- The non-missing values inside the trailing window of size `w` ending at
position `i` of the series `xs` (pandas skips NaN inside a rolling window). -/
def windowVals (w : ℕ) (xs : List (Option ℚ)) (i : ℕ) : List ℚ :=
  (windowPos w i).filterMap (fun p => xs.getD p none)

/-- Rolling mean with `min_periods=1`: mean of the non-missing values of the
trailing window, missing when the window holds no valid observation
(src/data_analysis.py:43-45,65, `series.rolling(window=w, min_periods=1).mean()`). -/
def smaAt (w : ℕ) (xs : List (Option ℚ)) (i : ℕ) : Option ℚ :=
  let vs := windowVals w xs i
  if vs = [] then none else some (vs.sum / vs.length)

/-- Rolling sample variance (`ddof=1`, the pandas `rolling(...).std()` default
squared): missing when the window holds fewer than 2 valid observations,
which is why `std` at position 0 is NaN (src/data_analysis.py:66-67). -/
def sampleVarAt (w : ℕ) (xs : List (Option ℚ)) (i : ℕ) : Option ℚ :=
  let vs := windowVals w xs i
  if vs.length < 2 then none
  else some ((vs.map (fun y => (y - vs.sum / vs.length) ^ 2)).sum / ((vs.length : ℚ) - 1))

/-! Forecaster (predict_future_values, src/data_analysis.py:268-338) -/

/-- Forecast output row: a future timestamp, the point forecast and the two
band columns `{column}_lower` / `{column}_upper` (src/data_analysis.py:325-329). -/
structure ForecastRow where
  ts : ℤ
  point : ℚ
  lower : ℚ
  upper : ℚ
deriving DecidableEq, Repr

/-- Stable sort of the (timestamp, value) rows by timestamp
(src/data_analysis.py:288, `df.sort_index()`). -/
def sortRows (rows : List (ℤ × Option ℚ)) : List (ℤ × Option ℚ) :=
  rows.insertionSort (fun a b => a.1 ≤ b.1)

/-- The cleaned series: sort by timestamp, then drop missing values keeping
the timestamps of the surviving observations (src/data_analysis.py:288,304). -/
def cleanedOf (rows : List (ℤ × Option ℚ)) : List (ℤ × ℚ) :=
  (sortRows rows).filterMap (fun r => r.2.map (fun v => (r.1, v)))

/-- Simple exponential smoothing over a fully observed series, returning the
last smoothed value: `s[0] = x[0]`, `s[t] = s[t-1] + α·(x[t] - s[t-1])`
(src/data_analysis.py:313,316, `series.ewm(alpha=alpha, adjust=False).mean().iloc[-1]`;
the cleaned series has no missing values). Returns 0 on an empty list, a case
the caller excludes by the 3-observation minimum. -/
def ewmLastTotal (α : ℚ) (vs : List ℚ) : ℚ :=
  match vs with
  | [] => 0
  | v :: rest => rest.foldl (fun s x => s + α * (x - s)) v

/-- The constant used for every future point forecast: the last value of the
α = 0.3 smoothed cleaned series (src/data_analysis.py:312-316). -/
def fcValue (rows : List (ℤ × Option ℚ)) : ℚ :=
  ewmLastTotal (3/10) ((cleanedOf rows).map Prod.snd)

/-- The last observed timestamp of the cleaned series (src/data_analysis.py:319). -/
def lastTsOf (rows : List (ℤ × Option ℚ)) : ℤ :=
  ((cleanedOf rows).map Prod.fst).getLastD 0

/-- Model of `pd.infer_freq(index) or 'D'`: the common positive spacing of
consecutive timestamps when it exists, otherwise the daily fallback 1
(src/data_analysis.py:322). -/
def inferFreq (ts : List ℤ) : ℤ :=
  match List.zipWith (fun a b => b - a) ts ts.tail with
  | [] => 1
  | d :: rest => if 0 < d ∧ rest.all (fun x => decide (x = d)) then d else 1

/-- The sampling step used to generate future timestamps. -/
def freqOf (rows : List (ℤ × Option ℚ)) : ℤ :=
  inferFreq ((cleanedOf rows).map Prod.fst)

/-- Future timestamps: `pd.date_range(start=last_date, periods=periods+1, freq=f)[1:]`
(src/data_analysis.py:322), i.e. `last + f, last + 2f, ..., last + periods·f`. -/
def forecastDates (rows : List (ℤ × Option ℚ)) (periods : ℕ) : List ℤ :=
  ((List.range (periods + 1)).map (fun (k : ℕ) => lastTsOf rows + (k : ℤ) * freqOf rows)).drop 1

/-- Model of predict_future_values at series level (src/data_analysis.py:268-338):
sort, drop missing values, return an empty result (`none`) below 3 valid
observations, otherwise the flat projection of the last smoothed value with
the fixed ±10% band (`lower = point·0.9`, `upper = point·1.1`,
src/data_analysis.py:325-329). -/
def predictSeries (rows : List (ℤ × Option ℚ)) (periods : ℕ) : Option (List ForecastRow) :=
  if (cleanedOf rows).length < 3 then none
  else some ((forecastDates rows periods).map
    (fun d => { ts := d, point := fcValue rows,
                lower := fcValue rows * (9/10), upper := fcValue rows * (11/10) }))

/-! Indicator engine (perform_trend_analysis, src/data_analysis.py:8-107) -/

/-- One step of the pandas `ewm(..., adjust=False, ignore_na=False)` recurrence.
The state is `none` before the first valid observation, afterwards the pair of
the running weighted average and the relative weight of the old average, which
decays by `1-α` across every elapsed period, missing ones included; on a valid
observation the update is `avg = (w·avg + α·x)/(w + α)` and the old weight
resets to 1 (pandas `adjust=False`). On a fully observed series this is exactly
`ema[t] = ema[t-1] + α·(x[t] - ema[t-1])`. -/
def ewmStep (α : ℚ) (s : Option (ℚ × ℚ)) (x : Option ℚ) : Option (ℚ × ℚ) :=
  match s, x with
  | none, none => none
  | none, some v => some (v, 1)
  | some (a, w), none => some (a, w * (1 - α))
  | some (a, w), some v =>
      some (((w * (1 - α)) * a + α * v) / (w * (1 - α) + α), 1)

/-- The `x.ewm(..., adjust=False).mean()` column: at every position the current
running average, missing before the first valid observation
(src/data_analysis.py:48-49,71,313). -/
def ewmList (α : ℚ) (xs : List (Option ℚ)) : List (Option ℚ) :=
  ((xs.scanl (ewmStep α) none).tail).map (Option.map Prod.fst)

/-- Exponential moving average with a span parameter: `α = 2/(span+1)`
(pandas `ewm(span=s, adjust=False)`, src/data_analysis.py:48-49). -/
def emaSpan (span : ℕ) (xs : List (Option ℚ)) : List (Option ℚ) :=
  ewmList (2 / ((span : ℚ) + 1)) xs

/-- Missing-propagating subtraction of two float columns (NaN − x = NaN). -/
def optSub (a b : Option ℚ) : Option ℚ :=
  match a, b with
  | some x, some y => some (x - y)
  | _, _ => none

/-- The MACD column: `EMA14 − EMA7`, the long EMA minus the short EMA, in the
exact (textbook-inverted) order of the source (src/data_analysis.py:70). -/
def macdCol (xs : List (Option ℚ)) : List (Option ℚ) :=
  List.zipWith optSub (emaSpan 14 xs) (emaSpan 7 xs)

/-- The MACD signal column: EMA of the MACD column with span 9
(src/data_analysis.py:71). -/
def macdSignalCol (xs : List (Option ℚ)) : List (Option ℚ) :=
  emaSpan 9 (macdCol xs)

/-- Period-over-period delta `series.diff()`: missing at position 0 and wherever
either endpoint is missing (src/data_analysis.py:52). -/
def deltaAt (xs : List (Option ℚ)) (t : ℕ) : Option ℚ :=
  if t = 0 then none
  else match xs.getD t none, xs.getD (t - 1) none with
    | some a, some b => some (a - b)
    | _, _ => none

/-- Gains column `delta.where(delta > 0, 0)`: a NaN delta compares false and is
replaced by 0, so the column is fully observed (src/data_analysis.py:53). -/
def gainAt (xs : List (Option ℚ)) (t : ℕ) : ℚ :=
  match deltaAt xs t with
  | some d => if 0 < d then d else 0
  | none => 0

/-- Losses column `-delta.where(delta < 0, 0)` (src/data_analysis.py:54). -/
def lossAt (xs : List (Option ℚ)) (t : ℕ) : ℚ :=
  match deltaAt xs t with
  | some d => if d < 0 then -d else 0
  | none => 0

/-- 14-period rolling mean of the gains column, `min_periods=1`; the gains
column has no missing values, so this is the plain mean of the trailing window
(src/data_analysis.py:56). -/
def avgGainAt (xs : List (Option ℚ)) (t : ℕ) : ℚ :=
  let g := (windowPos 14 t).map (gainAt xs)
  g.sum / g.length

/-- 14-period rolling mean of the losses column (src/data_analysis.py:57). -/
def avgLossAt (xs : List (Option ℚ)) (t : ℕ) : ℚ :=
  let g := (windowPos 14 t).map (lossAt xs)
  g.sum / g.length

/-- Relative strength `avg_gain / avg_loss.replace(0, np.nan)`: undefined (NaN)
exactly where the average loss is 0 (src/data_analysis.py:59). -/
def rsAt (xs : List (Option ℚ)) (t : ℕ) : Option ℚ :=
  if avgLossAt xs t = 0 then none else some (avgGainAt xs t / avgLossAt xs t)

/-- The RSI column `(100 - 100/(1+rs)).fillna(50)`: every undefined position is
filled with the neutral 50 (src/data_analysis.py:60-61). -/
def rsiAt (xs : List (Option ℚ)) (t : ℕ) : ℚ :=
  match rsAt xs t with
  | none => 50
  | some r => 100 - 100 / (1 + r)

/-- Upper Bollinger band `SMA20 + 2·std20`, with the rolling sample standard
deviation modelled exactly as the real square root of the rational rolling
sample variance; missing (NaN) wherever the std is, in particular at position 0
(src/data_analysis.py:66). -/
noncomputable def bolu (xs : List (Option ℚ)) (t : ℕ) : Option ℝ :=
  match smaAt 20 xs t, sampleVarAt 20 xs t with
  | some m, some v => some ((m : ℝ) + 2 * Real.sqrt (v : ℝ))
  | _, _ => none

/-- Lower Bollinger band `SMA20 - 2·std20` (src/data_analysis.py:67). -/
noncomputable def bold (xs : List (Option ℚ)) (t : ℕ) : Option ℝ :=
  match smaAt 20 xs t, sampleVarAt 20 xs t with
  | some m, some v => some ((m : ℝ) - 2 * Real.sqrt (v : ℝ))
  | _, _ => none

/-! Pattern detector (detect_patterns, src/data_analysis.py:109-266) -/

/-- The valid (position, value) pairs of the series: the mask `~np.isnan(y)`
applied to both `X = 0,1,2,...` and `y` (src/data_analysis.py:145-152). -/
def validPts (xs : List (Option ℚ)) : List (ℚ × ℚ) :=
  xs.enum.filterMap (fun p => p.2.map (fun v => ((p.1 : ℚ), v)))

/-- OLS slope over the valid points, 0 when the denominator is 0
(src/data_analysis.py:159-162). -/
def olsSlope (pts : List (ℚ × ℚ)) : ℚ :=
  let meanX := (pts.map Prod.fst).sum / pts.length
  let meanY := (pts.map Prod.snd).sum / pts.length
  let den := (pts.map (fun p => (p.1 - meanX) ^ 2)).sum
  if den ≠ 0 then (pts.map (fun p => (p.1 - meanX) * (p.2 - meanY))).sum / den else 0

/-- OLS intercept `mean_y - slope·mean_x` (src/data_analysis.py:164-165). -/
def olsIntercept (pts : List (ℚ × ℚ)) : ℚ :=
  (pts.map Prod.snd).sum / pts.length - olsSlope pts * ((pts.map Prod.fst).sum / pts.length)

/-- R-squared of the OLS fit, 0 when the total sum of squares is 0
(src/data_analysis.py:167-173). -/
def olsR2 (pts : List (ℚ × ℚ)) : ℚ :=
  let meanY := (pts.map Prod.snd).sum / pts.length
  let ssTot := (pts.map (fun p => (p.2 - meanY) ^ 2)).sum
  let ssRes := (pts.map (fun p => (p.2 - (olsIntercept pts + olsSlope pts * p.1)) ^ 2)).sum
  if ssTot ≠ 0 then 1 - ssRes / ssTot else 0

/-- Trend-strength check: when `R² > 0.7`, label "Upward Trend" or
"Downward Trend" by the sign of the slope, confidence `R²·100`
(src/data_analysis.py:177-183). -/
def trendEntry (xs : List (Option ℚ)) : List (String × ℝ) :=
  let pts := validPts xs
  if (7 : ℚ)/10 < olsR2 pts then
    [(if 0 < olsSlope pts then "Upward Trend" else "Downward Trend",
      ((olsR2 pts * 100 : ℚ) : ℝ))]
  else []

/-- The non-missing values of the series, `series.dropna()`. -/
def dropnaVals (xs : List (Option ℚ)) : List ℚ :=
  xs.filterMap id

/-- Population variance, the square of `np.std` (ddof=0). -/
def popVar (vs : List ℚ) : ℚ :=
  (vs.map (fun y => (y - vs.sum / vs.length) ^ 2)).sum / vs.length

/-- Mean-reversion check (src/data_analysis.py:185-199): with `m`, `σ` the mean
and population std of the non-missing values and `rm` the mean of the last 10
of them, `deviation = |rm - m| / σ` when `σ > 0`, else 0; the label fires when
`deviation < 0.5` with confidence `(1 - deviation)·100`. Since `σ = √(popVar)`
is irrational in general, the test `σ > 0` is embedded as `popVar > 0` and the
test `|rm - m|/σ < 1/2` in the equivalent squared form `4·(rm - m)² < popVar`;
the stored confidence uses the exact real square root. When `σ = 0` the
deviation is 0, the test `0 < 0.5` passes, and the confidence is
`(1 - 0)·100`. -/
noncomputable def mrEntry (xs : List (Option ℚ)) : List (String × ℝ) :=
  let vs := dropnaVals xs
  let recent := vs.drop (vs.length - 10)
  if 0 < recent.length then
    let m := vs.sum / vs.length
    let rm := recent.sum / recent.length
    if 0 < popVar vs then
      if 4 * (rm - m) ^ 2 < popVar vs then
        [("Mean Reversion", (1 - |((rm : ℝ)) - (m : ℝ)| / Real.sqrt ((popVar vs : ℚ) : ℝ)) * 100)]
      else []
    else [("Mean Reversion", (((1 - 0) * 100 : ℚ) : ℝ))]
  else []

/-- The smoothed series used by the peak/trough scans:
`series.rolling(window=3, min_periods=1).mean()` — a trailing window, the code
does not pass `center=True` (src/data_analysis.py:205). -/
def smoothedAt (xs : List (Option ℚ)) (i : ℕ) : Option ℚ :=
  smaAt 3 xs i

/-- Float comparison `a > b`: false whenever either side is NaN. -/
def optGT (a b : Option ℚ) : Bool :=
  match a, b with
  | some x, some y => decide (y < x)
  | _, _ => false

/-- Float comparison `a < b`: false whenever either side is NaN. -/
def optLT (a b : Option ℚ) : Bool :=
  match a, b with
  | some x, some y => decide (x < y)
  | _, _ => false

/-- Strict local maximum of the smoothed series over the ±2 neighbourhood
(src/data_analysis.py:210-213). -/
def peakAt (xs : List (Option ℚ)) (i : ℕ) : Bool :=
  optGT (smoothedAt xs i) (smoothedAt xs (i - 1)) &&
  optGT (smoothedAt xs i) (smoothedAt xs (i - 2)) &&
  optGT (smoothedAt xs i) (smoothedAt xs (i + 1)) &&
  optGT (smoothedAt xs i) (smoothedAt xs (i + 2))

/-- The local peaks `(index, smoothed value)` over the interior positions
`range(2, len - 2)` (src/data_analysis.py:208-214). A peak value is never NaN,
because a NaN never wins a float comparison. -/
def peaksOf (xs : List (Option ℚ)) : List (ℕ × ℚ) :=
  (List.range' 2 (xs.length - 4)).filterMap
    (fun i => if peakAt xs i then some (i, (smoothedAt xs i).getD 0) else none)

/-- The three highest peaks, re-sorted chronologically: stable sort descending
by value, take 3, stable sort by index (src/data_analysis.py:219-220). -/
def top3Peaks (ps : List (ℕ × ℚ)) : List (ℕ × ℚ) :=
  ((ps.insertionSort (fun a b => b.2 ≤ a.2)).take 3).insertionSort (fun a b => a.1 ≤ b.1)

/-- Head-and-shoulders check over the peaks (src/data_analysis.py:216-232):
three peaks, the middle strictly highest, shoulders within 20% of their
average, confidence `min(head_prominence·100, 90)`. The quotient tests carry
the explicit guard `avg ≠ 0`, because in the float source a zero denominator
yields NaN or ±inf, which fails the `< 0.2` comparison. -/
def hsEntry (xs : List (Option ℚ)) : List (String × ℝ) :=
  let ps := peaksOf xs
  if 3 ≤ ps.length then
    match top3Peaks ps with
    | [p0, p1, p2] =>
        if p0.2 < p1.2 ∧ p2.2 < p1.2 then
          let avg := (p0.2 + p2.2) / 2
          if avg ≠ 0 ∧ |p0.2 - p2.2| / avg < 1/5 then
            [("Head and Shoulders", ((min ((p1.2 - avg) / avg * 100) 90 : ℚ) : ℝ))]
          else []
        else []
    | _ => []
  else []

/-- Strict local minimum of the smoothed series over the ±2 neighbourhood
(src/data_analysis.py:239-242). -/
def trophAt (xs : List (Option ℚ)) (i : ℕ) : Bool :=
  optLT (smoothedAt xs i) (smoothedAt xs (i - 1)) &&
  optLT (smoothedAt xs i) (smoothedAt xs (i - 2)) &&
  optLT (smoothedAt xs i) (smoothedAt xs (i + 1)) &&
  optLT (smoothedAt xs i) (smoothedAt xs (i + 2))

/-- The local minima of the smoothed series (src/data_analysis.py:237-243). -/
def minsOf (xs : List (Option ℚ)) : List (ℕ × ℚ) :=
  (List.range' 2 (xs.length - 4)).filterMap
    (fun i => if trophAt xs i then some (i, (smoothedAt xs i).getD 0) else none)

/-- The two lowest minima, re-sorted chronologically (src/data_analysis.py:247-248). -/
def lowest2Mins (ms : List (ℕ × ℚ)) : List (ℕ × ℚ) :=
  ((ms.insertionSort (fun a b => a.2 ≤ b.2)).take 2).insertionSort (fun a b => a.1 ≤ b.1)

/-- Double-bottom check over the minima (src/data_analysis.py:245-259): two
minima within 10% of their average, more than 5 periods apart, confidence
`(1 - diff/avg)·100`; same float-division guard as head-and-shoulders. -/
def dbEntry (xs : List (Option ℚ)) : List (String × ℝ) :=
  let ms := minsOf xs
  if 2 ≤ ms.length then
    match lowest2Mins ms with
    | [m0, m1] =>
        let avg := (m0.2 + m1.2) / 2
        if avg ≠ 0 ∧ |m0.2 - m1.2| / avg < 1/10 ∧ 5 < m1.1 - m0.1 then
          [("Double Bottom", (((1 - |m0.2 - m1.2| / avg) * 100 : ℚ) : ℝ))]
        else []
    | _ => []
  else []

/-- Model of detect_patterns at series level (src/data_analysis.py:109-266).
The checks run in order inside one `try`: trend (needing at least 2 valid
points, else the function falls through to `return {}`), mean reversion,
head-and-shoulders only when `len(series) >= 30`, double bottom when
`len(series) >= 20`. The double-bottom scan reads the local variable
`smoothed`, which is assigned only inside the `len >= 30` branch: when
`20 <= len(series) < 30` it raises UnboundLocalError, the blanket `except`
catches it, and the function returns `{}`, discarding every label computed
before — the second branch below models exactly that. -/
noncomputable def detectPatternsSeries (xs : List (Option ℚ)) : List (String × ℝ) :=
  if (validPts xs).length ≤ 1 then []
  else if 20 ≤ xs.length ∧ xs.length < 30 then []
  else
    trendEntry xs ++ mrEntry xs ++
      (if 30 ≤ xs.length then hsEntry xs else []) ++
      (if 20 ≤ xs.length then dbEntry xs else [])

/-! Tabular level: column selection, sorting and the three public functions -/

/-- A DataFrame column: numeric (float64/int64, possibly with missing values)
or non-numeric (object dtype, e.g. strings). `select_dtypes` sees only the
numeric kind. -/
inductive Col where
  | num (vals : List (Option ℚ))
  | text (vals : List String)
deriving DecidableEq

/-- Numeric-dtype test, the model of membership in
`df.select_dtypes(include=['float64', 'int64'])`. -/
def Col.isNum : Col → Bool
  | .num _ => true
  | .text _ => false

/-- A tabular input: a shared sortable index plus named columns. -/
structure DataFrame where
  index : List ℤ
  cols : List (String × Col)
deriving DecidableEq

/-- Reorder a column by a row permutation given as a list of old positions. -/
def permuteCol (perm : List ℕ) : Col → Col
  | .num vs => .num (perm.map (fun i => vs.getD i none))
  | .text vs => .text (perm.map (fun i => vs.getD i ""))

/-- Model of `df.sort_index()`: stable sort of the rows by index value
(src/data_analysis.py:27,128,288). -/
def sortDF (df : DataFrame) : DataFrame :=
  let pairs := df.index.enum.insertionSort (fun a b => a.2 ≤ b.2)
  { index := pairs.map Prod.snd,
    cols := df.cols.map (fun c => (c.1, permuteCol (pairs.map Prod.fst) c.2)) }

/-- Column selection shared by all three functions (src/data_analysis.py:30-40,
131-140, 291-301): the named column when present — whatever its dtype — else
the first numeric column, else nothing. -/
def selectSeries (df : DataFrame) (column : String) : Option (String × Col) :=
  match df.cols.find? (fun p => p.1 == column) with
  | some p => some p
  | none => df.cols.find? (fun p => p.2.isNum)

/-- The indicator columns added by perform_trend_analysis, one field per
`{column}_<SUFFIX>` column of §4.1 of the spec (src/data_analysis.py:42-105). -/
structure IndicatorFrame where
  base : DataFrame
  colName : String
  sma7 : List (Option ℚ)
  sma14 : List (Option ℚ)
  sma30 : List (Option ℚ)
  ema7 : List (Option ℚ)
  ema14 : List (Option ℚ)
  rsi : List ℚ
  sma20 : List (Option ℚ)
  bolu : List (Option ℝ)
  bold : List (Option ℝ)
  macd : List (Option ℚ)
  macdSignal : List (Option ℚ)
  trend : List (Option ℚ)

/-- Result of perform_trend_analysis: either the sorted frame unchanged (no
numeric data, src/data_analysis.py:38-40) or the frame with indicator columns. -/
inductive IndicatorResult where
  | noNumeric (df : DataFrame)
  | frame (f : IndicatorFrame)

/-- Rolling-mean column of an SMA window (src/data_analysis.py:43-45,65). -/
def smaList (w : ℕ) (xs : List (Option ℚ)) : List (Option ℚ) :=
  (List.range xs.length).map (smaAt w xs)

/-- The RSI column (src/data_analysis.py:51-61). -/
def rsiList (xs : List (Option ℚ)) : List ℚ :=
  (List.range xs.length).map (rsiAt xs)

/-- The upper Bollinger column (src/data_analysis.py:66). -/
noncomputable def boluList (xs : List (Option ℚ)) : List (Option ℝ) :=
  (List.range xs.length).map (bolu xs)

/-- The lower Bollinger column (src/data_analysis.py:67). -/
noncomputable def boldList (xs : List (Option ℚ)) : List (Option ℝ) :=
  (List.range xs.length).map (bold xs)

/-- The fitted OLS line, evaluated at every position; entirely missing when
fewer than 2 valid points exist (src/data_analysis.py:74-105; the inner
`try/except` also degrades to the all-missing column). -/
def trendCol (xs : List (Option ℚ)) : List (Option ℚ) :=
  if (validPts xs).length ≤ 1 then List.replicate xs.length none
  else (List.range xs.length).map
    (fun i => some (olsIntercept (validPts xs) + olsSlope (validPts xs) * (i : ℚ)))

/-- Model of perform_trend_analysis (src/data_analysis.py:8-107). The function
sorts, selects the series, then computes the indicator columns with NO
enclosing try/except — only the final regression step is guarded. When the
selected column is non-numeric (possible only by explicit name, the fallback
filters on dtype), the very first `series.rolling(...).mean()` call raises a
pandas aggregation error, which nothing catches: modelled as `.error`. -/
noncomputable def perform_trend_analysis (data : DataFrame) (column : String) :
    Except String IndicatorResult :=
  let df := sortDF data
  match selectSeries df column with
  | none => .ok (.noNumeric df)
  | some (_, .text _) => .error "no numeric types to aggregate"
  | some (c, .num xs) => .ok (.frame
      { base := df, colName := c,
        sma7 := smaList 7 xs, sma14 := smaList 14 xs, sma30 := smaList 30 xs,
        ema7 := emaSpan 7 xs, ema14 := emaSpan 14 xs,
        rsi := rsiList xs,
        sma20 := smaList 20 xs, bolu := boluList xs, bold := boldList xs,
        macd := macdCol xs, macdSignal := macdSignalCol xs,
        trend := trendCol xs })

/-- Whether an Except value is a success. -/
def isOkE {α : Type} (e : Except String α) : Bool :=
  match e with
  | .ok _ => true
  | .error _ => false

/-- Whether selection lands on a non-numeric column (only possible by name). -/
def textSelected (df : DataFrame) (column : String) : Bool :=
  match selectSeries df column with
  | some (_, .text _) => true
  | _ => false

/-- Model of detect_patterns at tabular level (src/data_analysis.py:109-140).
A non-numeric selected column raises inside the `try` (at `np.isnan`) and is
caught, yielding `{}`; no numeric data yields `{}` (line 140). -/
noncomputable def detect_patterns (data : DataFrame) (column : String) : List (String × ℝ) :=
  let df := sortDF data
  match selectSeries df column with
  | none => []
  | some (_, .text _) => []
  | some (_, .num xs) => detectPatternsSeries xs

/-- Model of predict_future_values at tabular level (src/data_analysis.py:268-308).
No numeric data yields the empty frame (line 301); a non-numeric selected
column either has fewer than 3 rows (line 306) or raises at `series.ewm`
inside the `try` and is caught (line 336): empty frame either way. -/
def predict_future_values (data : DataFrame) (column : String) (periods : ℕ) :
    Option (List ForecastRow) :=
  let df := sortDF data
  match selectSeries df column with
  | none => none
  | some (_, .text _) => none
  | some (_, .num xs) => predictSeries (df.index.zip xs) periods

/-- The smoothing the spec describes for the head-and-shoulders scan, written
from the spec's words rather than from the source: a CENTERED rolling mean of
window 3 with min-periods 1, i.e. the mean of the defined values in the
neighbourhood `{i-1, i, i+1}` of position `i`. -/
def specCenteredSmooth (xs : List (Option ℚ)) (i : ℕ) : Option ℚ :=
  let vs := ((List.range xs.length).filter
      (fun p => decide (i - 1 ≤ p ∧ p ≤ i + 1))).filterMap (fun p => xs.getD p none)
  if vs = [] then none else some (vs.sum / vs.length)

/-! Claims -/

/-- Claim C9: predict_future_values drops missing values first, and whenever
the cleaned series has fewer than 3 valid observations it returns the empty
result instead of raising or producing rows (src/data_analysis.py:303-308). -/
theorem C9_forecast_empty_below_minimum (rows : List (ℤ × Option ℚ)) (periods : ℕ)
    (h : (cleanedOf rows).length < 3) : predictSeries rows periods = none := by
  simp [predictSeries, h]

/-- Witness for C9 at a length-3 input with only 2 valid observations. -/
theorem C9_forecast_empty_below_minimum_witness :
    (cleanedOf [((0:ℤ), some (1:ℚ)), ((1:ℤ), none), ((2:ℤ), some (2:ℚ))]).length < 3 ∧
    predictSeries [((0:ℤ), some (1:ℚ)), ((1:ℤ), none), ((2:ℤ), some (2:ℚ))] 7 = none :=
  ⟨by decide, C9_forecast_empty_below_minimum _ 7 (by decide)⟩

/-- Claim C10: every non-empty forecast has `lower = 0.9·point` and
`upper = 1.1·point` in every row, so `lower ≤ point ≤ upper` holds exactly when
the point forecast is nonnegative; when the last smoothed value is negative
the band is inverted (src/data_analysis.py:327-329). -/
theorem C10_band_inversion (rows : List (ℤ × Option ℚ)) (periods : ℕ)
    (F : List ForecastRow) (hF : predictSeries rows periods = some F) :
    (∀ r ∈ F, r.lower = r.point * (9/10) ∧ r.upper = r.point * (11/10) ∧
      ((r.lower ≤ r.point ∧ r.point ≤ r.upper) ↔ 0 ≤ r.point)) ∧
    (fcValue rows < 0 → ∀ r ∈ F, r.point < r.lower ∧ r.upper < r.point) := by
  by_cases hc : (cleanedOf rows).length < 3
  · simp [predictSeries, hc] at hF
  · simp only [predictSeries, hc, if_neg, ite_false, Option.some.injEq] at hF
    subst hF
    constructor
    · intro r hr
      obtain ⟨d, hd, rfl⟩ := List.mem_map.1 hr
      refine ⟨rfl, rfl, ?_⟩
      constructor
      · rintro ⟨h1, h2⟩
        simp only at h1
        linarith
      · intro h0
        constructor <;> · simp only; linarith
    · intro hneg r hr
      obtain ⟨d, hd, rfl⟩ := List.mem_map.1 hr
      constructor <;> · simp only; linarith

/-- Witness for C10 on the series [1,2,3] with horizon 1. -/
theorem C10_band_inversion_witness :
    predictSeries [((0:ℤ), some (1:ℚ)), ((1:ℤ), some (2:ℚ)), ((2:ℤ), some (3:ℚ))] 1 =
      some [{ ts := 3, point := 181/100, lower := 181/100 * (9/10), upper := 181/100 * (11/10) }] ∧
    ((∀ r ∈ [({ ts := 3, point := 181/100, lower := 181/100 * (9/10),
                upper := 181/100 * (11/10) } : ForecastRow)],
        r.lower = r.point * (9/10) ∧ r.upper = r.point * (11/10) ∧
        ((r.lower ≤ r.point ∧ r.point ≤ r.upper) ↔ 0 ≤ r.point)) ∧
     (fcValue [((0:ℤ), some (1:ℚ)), ((1:ℤ), some (2:ℚ)), ((2:ℤ), some (3:ℚ))] < 0 →
        ∀ r ∈ [({ ts := 3, point := 181/100, lower := 181/100 * (9/10),
                  upper := 181/100 * (11/10) } : ForecastRow)],
          r.point < r.lower ∧ r.upper < r.point)) :=
  ⟨by decide, C10_band_inversion _ 1 _ (by decide)⟩

/-- Claim C2, counterexample: on the constant series `[5]*50` detect_patterns
does NOT return the empty mapping — the zero-std guard sets the deviation to 0,
which passes the `deviation < 0.5` test (src/data_analysis.py:194-199). -/
theorem C2_cex : detectPatternsSeries (List.replicate 50 (some (5:ℚ))) ≠ [] := by
  intro h
  rw [show detectPatternsSeries (List.replicate 50 (some (5:ℚ))) =
      [("Mean Reversion", (((1 - 0) * 100 : ℚ) : ℝ))] from rfl] at h
  exact List.cons_ne_nil _ _ h

/-- Claim C2, amended: on the constant series `[5]*50` detect_patterns returns
exactly the mapping `{"Mean Reversion": 100}`: zero variance suppresses the
trend label (`R²` is set to 0) and the peak/trough scans (no strict local
extremum exists), but the zero-std guard sets `deviation = 0 < 0.5`, so Mean
Reversion fires with confidence `(1-0)·100 = 100`. -/
theorem C2_constant_series : detectPatternsSeries (List.replicate 50 (some (5:ℚ))) =
    [("Mean Reversion", (100 : ℝ))] := by
  rw [show detectPatternsSeries (List.replicate 50 (some (5:ℚ))) =
      [("Mean Reversion", (((1 - 0) * 100 : ℚ) : ℝ))] from rfl]
  norm_num

/-- Claim C3: FALSE of the code — a code bug. For a series of 20 to 29
observations the double-bottom block reads the variable `smoothed`, assigned
only inside the `len >= 30` head-and-shoulders branch; the resulting
UnboundLocalError is swallowed by the blanket `except`, so detect_patterns
returns `{}` and the labels detected earlier are LOST. On the strictly
increasing series `[1..20]`, the trend check alone would produce
`{"Upward Trend": 100}` (R² = 1), yet the function returns `{}`. -/
theorem C3_scope_bug :
    detectPatternsSeries ((List.range 20).map (fun i => some ((i : ℚ) + 1))) = [] ∧
    trendEntry ((List.range 20).map (fun i => some ((i : ℚ) + 1))) =
      [("Upward Trend", ((100 : ℚ) : ℝ))] :=
  ⟨rfl, rfl⟩

/-- Claim C5, counterexample: the head-and-shoulders smoothing is NOT the
centered rolling mean the spec describes; on `[0, 3, 0]` the code's trailing
window gives `smoothed[1] = (0+3)/2 = 3/2`, a centered window would give 1. -/
theorem C5_cex :
    smoothedAt [some 0, some 3, some 0] 1 ≠ specCenteredSmooth [some 0, some 3, some 0] 1 := by
  decide

/-- Claim C5, amended: the smoothing before the peak scan is the TRAILING
rolling mean of window 3 with min-periods 1 (`series.rolling(window=3,
min_periods=1).mean()`, no `center=True`, src/data_analysis.py:205): at every
position `i ≥ 2` whose trailing neighbourhood `x[i-2], x[i-1], x[i]` is fully
observed, the smoothed value is `(x[i-2] + x[i-1] + x[i]) / 3`. -/
theorem C5_trailing_smoothing (xs : List (Option ℚ)) (i : ℕ) (a b c : ℚ) (h2 : 2 ≤ i)
    (ha : xs.getD (i - 2) none = some a) (hb : xs.getD (i - 1) none = some b)
    (hc : xs.getD i none = some c) :
    smoothedAt xs i = some ((a + b + c) / 3) := by
  have e0 : i + 1 - 3 = i - 2 := by omega
  have e1 : min 3 (i + 1) = 3 := by omega
  have e2 : i - 2 + 1 = i - 1 := by omega
  have e3 : i - 1 + 1 = i := by omega
  simp only [smoothedAt, smaAt, windowVals, windowPos, e0, e1, List.range',
    e2, e3, List.filterMap, ha, hb, hc]
  norm_num
  exact ⟨List.cons_ne_nil _ _, by ring⟩

/-- Witness for C5 at `[1, 2, 3]`, position 2. -/
theorem C5_trailing_smoothing_witness :
    2 ≤ 2 ∧ smoothedAt [some 1, some 2, some 3] 2 = some ((1 + 2 + 3) / 3) :=
  ⟨by norm_num, C5_trailing_smoothing _ 2 1 2 3 (by norm_num) rfl rfl rfl⟩

/-- Claim C1, counterexample: perform_trend_analysis is NOT total — its
indicator section has no try/except, so explicitly selecting a non-numeric
column makes the first `series.rolling(...).mean()` raise instead of returning
an empty result (src/data_analysis.py:30-31 select by name without a dtype
check, then line 43 raises). -/
theorem C1_cex :
    perform_trend_analysis { index := [0], cols := [("a", Col.text ["x"])] } "a" =
      .error "no numeric types to aggregate" := rfl

/-- Claim C1, amended: detect_patterns and predict_future_values convert the
failures of their guarded bodies to empty results (their models are total
functions), but perform_trend_analysis guards only its regression step: it
succeeds exactly when column selection does not land on a non-numeric column
by explicit name. -/
theorem C1_totality (data : DataFrame) (column : String) :
    isOkE (perform_trend_analysis data column) = !textSelected (sortDF data) column := by
  simp only [perform_trend_analysis, textSelected]
  rcases h : selectSeries (sortDF data) column with _ | ⟨c, cc⟩
  · simp [h, isOkE]
  · cases cc <;> simp [h, isOkE]

/-- Claim C4, counterexample: the Bollinger columns are NOT well defined at
position 0 — the rolling sample std (ddof=1) of the single observation in the
first window is NaN, so `BOLU[0]` is missing. -/
theorem C4_cex : bolu [some (1:ℚ), some 2] 0 = none := rfl

/-- The first Bollinger window never holds 2 valid observations. -/
theorem sampleVarAt_zero (xs : List (Option ℚ)) : sampleVarAt 20 xs 0 = none := by
  rcases xs with _ | ⟨y, ys⟩
  · rfl
  · rcases y with _ | v <;> rfl

/-- Claim C4, amended: wherever the rolling std is defined — which requires at
least 2 valid observations in the window and therefore never happens at
position 0, where both Bollinger columns are missing — the band ordering
`BOLD[t] ≤ SMA20[t] ≤ BOLU[t]` holds (src/data_analysis.py:63-67). -/
theorem C4_bollinger_order (xs : List (Option ℚ)) (t : ℕ) :
    (∀ u l m, bolu xs t = some u → bold xs t = some l → smaAt 20 xs t = some m →
      l ≤ (m : ℝ) ∧ (m : ℝ) ≤ u) ∧ bolu xs 0 = none ∧ bold xs 0 = none := by
  refine ⟨?_, ?_, ?_⟩
  · intro u l m hu hl hm
    rcases h1 : smaAt 20 xs t with _ | m2 <;> rcases h2 : sampleVarAt 20 xs t with _ | v <;>
      simp [bolu, bold, h1, h2] at hu hl
    rw [h1] at hm
    obtain rfl : m2 = m := Option.some.inj hm
    subst hu
    subst hl
    have hs : 0 ≤ Real.sqrt ((v : ℚ) : ℝ) := Real.sqrt_nonneg _
    constructor <;> linarith
  · simp [bolu, sampleVarAt_zero]
  · simp [bold, sampleVarAt_zero]

/-- Witness for C4 at the series `[1, 2]`, position 1, where
`SMA20 = 3/2` and the sample variance is `1/2`. -/
theorem C4_bollinger_order_witness :
    ((3/2 : ℚ) : ℝ) - 2 * Real.sqrt ((1/2 : ℚ) : ℝ) ≤ ((3/2 : ℚ) : ℝ) ∧
    ((3/2 : ℚ) : ℝ) ≤ ((3/2 : ℚ) : ℝ) + 2 * Real.sqrt ((1/2 : ℚ) : ℝ) :=
  (C4_bollinger_order [some 1, some 2] 1).1 _ _ _ rfl rfl rfl

/-- Every entry of the gains column is nonnegative. -/
theorem gainAt_nonneg (xs : List (Option ℚ)) (t : ℕ) : 0 ≤ gainAt xs t := by
  unfold gainAt
  rcases deltaAt xs t with _ | d
  · exact le_refl 0
  · dsimp only
    split <;> [linarith; exact le_refl 0]

/-- Every entry of the losses column is nonnegative. -/
theorem lossAt_nonneg (xs : List (Option ℚ)) (t : ℕ) : 0 ≤ lossAt xs t := by
  unfold lossAt
  rcases deltaAt xs t with _ | d
  · exact le_refl 0
  · dsimp only
    split <;> [linarith; exact le_refl 0]

/-- The rolling average gain is nonnegative. -/
theorem avgGainAt_nonneg (xs : List (Option ℚ)) (t : ℕ) : 0 ≤ avgGainAt xs t := by
  unfold avgGainAt
  refine div_nonneg (List.sum_nonneg ?_) (by positivity)
  intro x hx
  obtain ⟨p, _, rfl⟩ := List.mem_map.1 hx
  exact gainAt_nonneg xs p

/-- The rolling average loss is nonnegative. -/
theorem avgLossAt_nonneg (xs : List (Option ℚ)) (t : ℕ) : 0 ≤ avgLossAt xs t := by
  unfold avgLossAt
  refine div_nonneg (List.sum_nonneg ?_) (by positivity)
  intro x hx
  obtain ⟨p, _, rfl⟩ := List.mem_map.1 hx
  exact lossAt_nonneg xs p

/-- At position 0 the average loss is 0: no prior delta exists, so the loss
column starts with 0 and the first window holds only that value. -/
theorem avgLossAt_zero (xs : List (Option ℚ)) : avgLossAt xs 0 = 0 := by
  simp [avgLossAt, windowPos, List.range', lossAt, deltaAt]

/-- Claim C8: the RSI column always lies in [0, 100]; every position whose
14-period average loss is 0 — position 0 in particular — holds the neutral
value 50, never a missing value or an infinity (src/data_analysis.py:51-61). -/
theorem C8_rsi_range (xs : List (Option ℚ)) (t : ℕ) (_ht : t < xs.length) :
    (0 ≤ rsiAt xs t ∧ rsiAt xs t ≤ 100) ∧
    (avgLossAt xs t = 0 → rsiAt xs t = 50) ∧ rsiAt xs 0 = 50 := by
  refine ⟨?_, ?_, ?_⟩
  · by_cases h : avgLossAt xs t = 0
    · simp [rsiAt, rsAt, h]
      norm_num
    · have hl : 0 < avgLossAt xs t := lt_of_le_of_ne (avgLossAt_nonneg xs t) (Ne.symm h)
      have hr : 0 ≤ avgGainAt xs t / avgLossAt xs t :=
        div_nonneg (avgGainAt_nonneg xs t) (le_of_lt hl)
      simp only [rsiAt, rsAt, h, if_neg, ite_false]
      constructor
      · have h100 : (100 : ℚ) / (1 + avgGainAt xs t / avgLossAt xs t) ≤ 100 :=
          div_le_self (by norm_num) (by linarith)
        linarith
      · have hpos : 0 < (100 : ℚ) / (1 + avgGainAt xs t / avgLossAt xs t) :=
          div_pos (by norm_num) (by linarith)
        linarith
  · intro h
    simp [rsiAt, rsAt, h]
  · simp [rsiAt, rsAt, avgLossAt_zero]

/-- Witness for C8 at the one-point series `[5]`, position 0. -/
theorem C8_rsi_range_witness :
    0 < ([some (5:ℚ)]).length ∧
    ((0 ≤ rsiAt [some (5:ℚ)] 0 ∧ rsiAt [some (5:ℚ)] 0 ≤ 100) ∧
     (avgLossAt [some (5:ℚ)] 0 = 0 → rsiAt [some (5:ℚ)] 0 = 50) ∧ rsiAt [some (5:ℚ)] 0 = 50) :=
  ⟨by norm_num, C8_rsi_range _ 0 (by norm_num)⟩

/-- The ewm column has the length of its input. -/
theorem length_ewmList (α : ℚ) (xs : List (Option ℚ)) : (ewmList α xs).length = xs.length := by
  simp [ewmList, List.length_tail, List.length_scanl]

/-- getD of a zipWith of missing-propagating subtraction, in bounds. -/
theorem zipWith_optSub_getD :
    ∀ (l1 l2 : List (Option ℚ)) (t : ℕ), t < l1.length → t < l2.length →
      (List.zipWith optSub l1 l2).getD t none = optSub (l1.getD t none) (l2.getD t none)
  | _ :: _, _ :: _, 0, _, _ => rfl
  | _ :: l1, _ :: l2, t + 1, h1, h2 =>
      zipWith_optSub_getD l1 l2 t (by simpa using h1) (by simpa using h2)
  | [], _, t, h1, _ => absurd h1 (by simp)
  | _ :: _, [], t, _, h2 => absurd h2 (by simp)

/-- Claim C7: at every position the MACD column equals `EMA14 - EMA7` — the
long EMA minus the short one, the reverse of the textbook convention — and the
signal column is the non-adjusted EMA of the MACD column with
`α = 2/(9+1) = 1/5` (src/data_analysis.py:69-71). -/
theorem C7_macd_inverted (xs : List (Option ℚ)) (t : ℕ) (ht : t < xs.length) :
    (macdCol xs).getD t none =
      optSub ((emaSpan 14 xs).getD t none) ((emaSpan 7 xs).getD t none) ∧
    macdSignalCol xs = ewmList (1/5) (macdCol xs) := by
  constructor
  · exact zipWith_optSub_getD _ _ t (by simp [emaSpan, length_ewmList, ht])
      (by simp [emaSpan, length_ewmList, ht])
  · show ewmList (2 / ((9 : ℚ) + 1)) (macdCol xs) = ewmList (1/5) (macdCol xs)
    norm_num

/-- Witness for C7 at the series `[1, 2]`, position 1. -/
theorem C7_macd_inverted_witness :
    1 < ([some (1:ℚ), some 2]).length ∧
    ((macdCol [some (1:ℚ), some 2]).getD 1 none =
       optSub ((emaSpan 14 [some (1:ℚ), some 2]).getD 1 none)
         ((emaSpan 7 [some (1:ℚ), some 2]).getD 1 none) ∧
     macdSignalCol [some (1:ℚ), some 2] = ewmList (1/5) (macdCol [some (1:ℚ), some 2])) :=
  ⟨by norm_num, C7_macd_inverted _ 1 (by norm_num)⟩

/-- Claim C6: for every input whose cleaned series has at least 3 valid
observations and every horizon of at least 1, the forecast has exactly
`horizon` rows; every row carries the same point forecast — the last value of
the α = 0.3 smoothed cleaned series — with `lower = 0.9·point` and
`upper = 1.1·point` exactly, and row `k` is timestamped `k+1` inferred
frequency steps after the last observed timestamp
(src/data_analysis.py:310-334). -/
theorem C6_forecast_shape (rows : List (ℤ × Option ℚ)) (h : ℕ) (hh : 1 ≤ h)
    (h3 : 3 ≤ (cleanedOf rows).length) :
    ∃ F, predictSeries rows h = some F ∧ F.length = h ∧
      ∀ k, k < h → F.getD k { ts := 0, point := 0, lower := 0, upper := 0 } =
        { ts := lastTsOf rows + ((k : ℤ) + 1) * freqOf rows, point := fcValue rows,
          lower := fcValue rows * (9/10), upper := fcValue rows * (11/10) } := by
  have hnl : ¬ (cleanedOf rows).length < 3 := by omega
  refine ⟨(forecastDates rows h).map
      (fun d => { ts := d, point := fcValue rows,
                  lower := fcValue rows * (9/10), upper := fcValue rows * (11/10) }),
    ?_, ?_, ?_⟩
  · simp [predictSeries, hnl]
  · rw [List.length_map, forecastDates, List.length_drop, List.length_map, List.length_range]
    omega
  · intro k hk
    have hk1 : 1 + k < h + 1 := by omega
    rw [List.getD_eq_getElem?_getD, forecastDates, List.getElem?_map, List.getElem?_drop,
      List.getElem?_map, List.getElem?_range hk1, Option.map_some', Option.map_some',
      Option.getD_some]
    have hcast : ((1 + k : ℕ) : ℤ) = (k : ℤ) + 1 := by push_cast; ring
    rw [hcast]

/-- Witness for C6 on the series [1,2,3] with horizon 2. -/
theorem C6_forecast_shape_witness :
    (1 ≤ 2 ∧
     3 ≤ (cleanedOf [((0:ℤ), some (1:ℚ)), ((1:ℤ), some (2:ℚ)), ((2:ℤ), some (3:ℚ))]).length) ∧
    (∃ F, predictSeries [((0:ℤ), some (1:ℚ)), ((1:ℤ), some (2:ℚ)), ((2:ℤ), some (3:ℚ))] 2 =
        some F ∧ F.length = 2 ∧
      ∀ k, k < 2 → F.getD k { ts := 0, point := 0, lower := 0, upper := 0 } =
        { ts := lastTsOf [((0:ℤ), some (1:ℚ)), ((1:ℤ), some (2:ℚ)), ((2:ℤ), some (3:ℚ))] +
            ((k : ℤ) + 1) * freqOf [((0:ℤ), some (1:ℚ)), ((1:ℤ), some (2:ℚ)), ((2:ℤ), some (3:ℚ))],
          point := fcValue [((0:ℤ), some (1:ℚ)), ((1:ℤ), some (2:ℚ)), ((2:ℤ), some (3:ℚ))],
          lower := fcValue [((0:ℤ), some (1:ℚ)), ((1:ℤ), some (2:ℚ)), ((2:ℤ), some (3:ℚ))] * (9/10),
          upper := fcValue [((0:ℤ), some (1:ℚ)), ((1:ℤ), some (2:ℚ)), ((2:ℤ), some (3:ℚ))] * (11/10) }) :=
  ⟨⟨by norm_num, by decide⟩, C6_forecast_shape _ 2 (by norm_num) (by decide)⟩

end DataAnalysis
